import Mathlib

/-!
Verification of the NVR (network video recorder) core: a shallow embedding of
the stream worker and registry (camera_stream_manager.py), the recording
supervisor and registry (recording_manager.py) and the failsafe monitor
(failsafe_monitor.py), together with theorems settling the specified
behaviour of each subsystem.

Machine integers are modelled as Nat and Int, wall-clock timestamps and
filesystem quantities as exact rationals (epoch seconds), fallible code as
Option, and the mutable per-worker and registry state as explicit state
records and association lists keyed by camera id.
-/

namespace NVR

attribute [local semireducible] Rat.add Rat.sub Rat.mul Rat.inv

/-! ## Association-list registries

Both `CameraStreamManager.streams` and `RecordingManager.recorders` are
Python dicts keyed by camera id.  They are modelled as association lists
with dict update (assignment replaces) and dict deletion. -/

def alistLookup {β : Type} (l : List (Int × β)) (k : Int) : Option β :=
  match l.find? (fun p => p.1 == k) with
  | some p => some p.2
  | none => none

def alistDelete {β : Type} (l : List (Int × β)) (k : Int) : List (Int × β) :=
  l.filter (fun p => p.1 != k)

def alistInsert {β : Type} (l : List (Int × β)) (k : Int) (v : β) : List (Int × β) :=
  (k, v) :: alistDelete l k

/-! ## Recording supervisor (recording_manager.py, class CameraRecorder)

The per-camera recorder owns an external FFmpeg encode process.  The fields
model: `is_recording` (the desired-running flag), `hasProcess`
(`self.process is not None`), `processAlive` (`self.process.poll() is None`),
and `restarts` instruments how many times `_start_ffmpeg_process` has been
invoked from the monitor loop. -/

structure RecorderState where
  camera_id : Int
  is_recording : Bool
  hasProcess : Bool
  processAlive : Bool
  restarts : Nat
deriving Repr, DecidableEq

/-- The process-supervision part of one iteration of
`CameraRecorder._monitor_loop` (lines 240-252).  The `launchOk` argument is
the return value of `_start_ffmpeg_process`: on success the process handle is
replaced by a live one, on failure the old handle is left in place.  The
second component is `some d` when the loop slept `d` seconds and relaunched
the encoder, `none` otherwise. -/
def superviseStep (s : RecorderState) (launchOk : Bool) : RecorderState × Option Nat :=
  if s.is_recording then
    if s.hasProcess && s.processAlive then (s, none)
    else if s.is_recording then
      ({ s with hasProcess := launchOk || s.hasProcess,
                processAlive := if launchOk then true else s.processAlive,
                restarts := s.restarts + 1 }, some 2)
    else (s, none)
  else (s, none)

/-- `CameraRecorder.stop` (lines 142-157): clears the desired-running flag
and terminates and drops the process. -/
def recorderStop (s : RecorderState) : RecorderState :=
  { s with is_recording := false, hasProcess := false, processAlive := false }

/-- One encoder crash (the process exits) followed by the supervision part of
the next monitor-loop iteration, with the relaunch succeeding. -/
def crashThenSupervise (s : RecorderState) : RecorderState :=
  (superviseStep { s with processAlive := false } true).1

/-- `n` consecutive crash-and-supervise rounds. -/
def crashRun (s : RecorderState) : Nat → RecorderState
  | 0 => s
  | n + 1 => crashRun (crashThenSupervise s) n

theorem crashRun_spec (s : RecorderState) (h : s.is_recording = true) (n : Nat) :
    (crashRun s n).is_recording = true ∧ (crashRun s n).restarts = s.restarts + n := by
  induction n generalizing s with
  | zero => simp [crashRun, h]
  | succ n ih =>
    have hstep : (crashThenSupervise s).is_recording = true ∧
        (crashThenSupervise s).restarts = s.restarts + 1 := by
      simp [crashThenSupervise, superviseStep, h]
    obtain ⟨h1, h2⟩ := hstep
    have := ih (crashThenSupervise s) h1
    simp only [crashRun]
    exact ⟨this.1, by rw [this.2, h2]; omega⟩

/-- C1: whenever the monitor loop of a recorder whose desired-running flag is
set observes that the encoder process has exited or is missing, it sleeps a
fixed 2 seconds and relaunches the encoder, unconditionally and with no retry
ceiling (the relaunch is taken for every value of the restart counter); `n`
consecutive crashes yield `n` relaunches, one per monitor-loop iteration,
with desired-running still set; the supervision step never clears the
desired-running flag, and only an explicit `stop` call does. -/
theorem crash_restart_never_stop (s t : RecorderState) (ok b : Bool) (n : Nat)
    (hrec : s.is_recording = true)
    (hdead : (s.hasProcess && s.processAlive) = false) :
    (superviseStep s ok).2 = some 2 ∧
    (superviseStep s ok).1.restarts = s.restarts + 1 ∧
    (superviseStep s ok).1.is_recording = true ∧
    (crashRun s n).is_recording = true ∧
    (crashRun s n).restarts = s.restarts + n ∧
    (superviseStep t b).1.is_recording = t.is_recording ∧
    (recorderStop t).is_recording = false := by
  have hrun := crashRun_spec s hrec n
  refine ⟨?_, ?_, ?_, hrun.1, hrun.2, ?_, rfl⟩
  · simp [superviseStep, hrec, hdead]
  · simp [superviseStep, hrec, hdead]
  · simp [superviseStep, hrec, hdead]
  · by_cases ht : t.is_recording <;>
      by_cases hp : t.hasProcess <;>
      by_cases ha : t.processAlive <;>
      simp [superviseStep, ht, hp, ha]

/-- Witness for C1: a recorder with desired-running set whose process has
died (camera 1, three prior restarts), checked after 5 consecutive crashes:
5 relaunches and still recording. -/
theorem crash_restart_never_stop_witness :
    ((⟨1, true, true, false, 3⟩ : RecorderState).is_recording = true ∧
      ((⟨1, true, true, false, 3⟩ : RecorderState).hasProcess &&
        (⟨1, true, true, false, 3⟩ : RecorderState).processAlive) = false) ∧
    ((superviseStep ⟨1, true, true, false, 3⟩ true).2 = some 2 ∧
      (superviseStep ⟨1, true, true, false, 3⟩ true).1.restarts = 3 + 1 ∧
      (superviseStep ⟨1, true, true, false, 3⟩ true).1.is_recording = true ∧
      (crashRun ⟨1, true, true, false, 3⟩ 5).is_recording = true ∧
      (crashRun ⟨1, true, true, false, 3⟩ 5).restarts = 3 + 5 ∧
      (superviseStep ⟨2, false, true, true, 0⟩ false).1.is_recording =
        (⟨2, false, true, true, 0⟩ : RecorderState).is_recording ∧
      (recorderStop ⟨2, false, true, true, 0⟩).is_recording = false) :=
  ⟨by decide,
    crash_restart_never_stop ⟨1, true, true, false, 3⟩ ⟨2, false, true, true, 0⟩
      true false 5 (by decide) (by decide)⟩

/-! ## Stream worker and registry (camera_stream_manager.py)

`CameraStream` holds one live-decode worker: `is_running` is the cooperative
run flag, `captureOpen` models `self.capture is not None and
self.capture.isOpened()`, `reconnect_attempts` and
`max_reconnect_attempts` are the reconnect counter and ceiling, and
`threadGen` instruments how many capture threads this worker has spawned. -/

structure CameraStream where
  camera_id : Int
  rtsp_url : String
  camera_name : String
  is_running : Bool
  captureOpen : Bool
  reconnect_attempts : Nat
  max_reconnect_attempts : Nat
  threadGen : Nat
deriving Repr, DecidableEq

/-- `CameraStream.__init__` (lines 21-31). -/
def initStream (id : Int) (url name : String) : CameraStream :=
  { camera_id := id, rtsp_url := url, camera_name := name,
    is_running := false, captureOpen := false,
    reconnect_attempts := 0, max_reconnect_attempts := 5, threadGen := 0 }

/-- `CameraStream.start` (lines 33-42): a no-op when the worker is already
running, otherwise sets the run flag and spawns the capture thread. -/
def streamStart (s : CameraStream) : CameraStream :=
  if s.is_running then s
  else { s with is_running := true, threadGen := s.threadGen + 1 }

/-- `CameraStream.stop` (lines 44-51): clears the run flag and releases the
capture. -/
def streamStop (s : CameraStream) : CameraStream :=
  { s with is_running := false, captureOpen := false }

/-- The connection phase of one iteration of `CameraStream._capture_frames`
(lines 53-76), driven by `connectOk`, the outcome of opening the capture.
On failure the counter is incremented and the loop aborts (run flag cleared,
loop broken) when the incremented counter has reached the ceiling; on
success the counter is reset to 0.  An iteration with the capture already
open, or on a stopped worker, leaves this state unchanged. -/
def captureConnectStep (s : CameraStream) (connectOk : Bool) : CameraStream :=
  if !s.is_running then s
  else if s.captureOpen then s
  else if !connectOk then
    let a := s.reconnect_attempts + 1
    if s.max_reconnect_attempts ≤ a then
      { s with reconnect_attempts := a, is_running := false }
    else { s with reconnect_attempts := a }
  else { s with captureOpen := true, reconnect_attempts := 0 }

/-- `n` consecutive failed connection attempts. -/
def runConnectFailures (s : CameraStream) : Nat → CameraStream
  | 0 => s
  | n + 1 => runConnectFailures (captureConnectStep s false) n

/-- For comparison with `captureConnectStep` only, this follows the spec
wording "abort the stream permanently once the counter exceeds a ceiling
(default 5)": the abort requires the incremented counter to be strictly
greater than the ceiling. -/
def captureConnectStepExceeds (s : CameraStream) (connectOk : Bool) : CameraStream :=
  if !s.is_running then s
  else if s.captureOpen then s
  else if !connectOk then
    let a := s.reconnect_attempts + 1
    if s.max_reconnect_attempts < a then
      { s with reconnect_attempts := a, is_running := false }
    else { s with reconnect_attempts := a }
  else { s with captureOpen := true, reconnect_attempts := 0 }

/-- `n` consecutive failed connection attempts under the "exceeds" reading. -/
def runConnectFailuresExceeds (s : CameraStream) : Nat → CameraStream
  | 0 => s
  | n + 1 => runConnectFailuresExceeds (captureConnectStepExceeds s false) n

/-- A freshly started worker for camera 1. -/
def startedStream : CameraStream := streamStart (initStream 1 "rtsp://cam1" "Cam 1")

/-- C3 counterexample: the code stops the worker on the 5th consecutive
failed attempt (counter reaching the ceiling), whereas under the spec
wording "once the counter exceeds a ceiling (default 5)" the worker would
still be running after 5 failures and stop only on the 6th: the two
phrasings do not agree on which failed attempt is the last. -/
theorem reconnect_exceeds_wording_cex :
    (runConnectFailures startedStream 5).is_running = false ∧
    (runConnectFailuresExceeds startedStream 5).is_running = true ∧
    (runConnectFailuresExceeds startedStream 6).is_running = false := by
  decide

theorem captureConnectStep_stopped (s : CameraStream) (h : s.is_running = false)
    (b : Bool) : captureConnectStep s b = s := by
  simp [captureConnectStep, h]

/-- C3 (amended): for a running worker with the capture closed, counter 0
and ceiling 5, the 4th consecutive failed connection attempt leaves it
running but the 5th clears the run flag with the counter at 5 (the abort
fires when the incremented counter reaches the ceiling); once stopped, an
iteration changes nothing, so no further connection attempts occur; a
successful connection sets the capture open and resets the counter to 0. -/
theorem reconnect_ceiling_amended (s t : CameraStream) (b : Bool)
    (hrun : s.is_running = true) (hopen : s.captureOpen = false)
    (hatt : s.reconnect_attempts = 0) (hmax : s.max_reconnect_attempts = 5)
    (htstop : t.is_running = false) :
    (runConnectFailures s 4).is_running = true ∧
    (runConnectFailures s 5).is_running = false ∧
    (runConnectFailures s 5).reconnect_attempts = 5 ∧
    captureConnectStep t b = t ∧
    (captureConnectStep s true).captureOpen = true ∧
    (captureConnectStep s true).reconnect_attempts = 0 := by
  obtain ⟨cid, url, name, run, copen, att, mx, gen⟩ := s
  simp only at hrun hopen hatt hmax
  subst hrun hopen hatt hmax
  refine ⟨?_, ?_, ?_, captureConnectStep_stopped t htstop b, ?_, ?_⟩ <;>
    simp [runConnectFailures, captureConnectStep]

/-- Witness for C3 (amended): the freshly started worker for camera 1,
together with a stopped worker. -/
theorem reconnect_ceiling_amended_witness :
    (startedStream.is_running = true ∧ startedStream.captureOpen = false ∧
      startedStream.reconnect_attempts = 0 ∧
      startedStream.max_reconnect_attempts = 5 ∧
      (initStream 2 "rtsp://cam2" "Cam 2").is_running = false) ∧
    ((runConnectFailures startedStream 4).is_running = true ∧
      (runConnectFailures startedStream 5).is_running = false ∧
      (runConnectFailures startedStream 5).reconnect_attempts = 5 ∧
      captureConnectStep (initStream 2 "rtsp://cam2" "Cam 2") true =
        initStream 2 "rtsp://cam2" "Cam 2" ∧
      (captureConnectStep startedStream true).captureOpen = true ∧
      (captureConnectStep startedStream true).reconnect_attempts = 0) :=
  ⟨by decide,
    reconnect_ceiling_amended startedStream (initStream 2 "rtsp://cam2" "Cam 2")
      true (by decide) (by decide) (by decide) (by decide) (by decide)⟩

/-- `CameraStreamManager.stop_stream` (lines 161-166): stops the worker and
removes it from the registry. -/
def stopStream (streams : List (Int × CameraStream)) (id : Int) :
    List (Int × CameraStream) :=
  match alistLookup streams id with
  | some _ => alistDelete streams id
  | none => streams

/-- `CameraStreamManager.start_stream` (lines 141-159): stops and removes
any existing worker for the id, then creates a fresh worker, registers it
and starts it.  Returns the new registry, the boolean result (True), and
whether a new capture loop was spawned during the call. -/
def startStream (streams : List (Int × CameraStream)) (id : Int)
    (url name : String) : List (Int × CameraStream) × Bool × Bool :=
  let streams1 :=
    match alistLookup streams id with
    | some _ => stopStream streams id
    | none => streams
  let fresh := initStream id url name
  let started := streamStart fresh
  (alistInsert streams1 id started, true,
    started.threadGen != fresh.threadGen)

/-- A worker for camera 7 that has been running for a while (three reconnect
attempts recorded on its counter). -/
def oldWorker : CameraStream :=
  { camera_id := 7, rtsp_url := "rtsp://cam7", camera_name := "Cam 7",
    is_running := true, captureOpen := true,
    reconnect_attempts := 3, max_reconnect_attempts := 5, threadGen := 1 }

/-- C2 counterexample: calling `start_stream` for camera 7 while a worker
for camera 7 is already running is not a no-op: the registry no longer
holds the existing worker afterwards (it was stopped, removed and replaced
by a fresh one) and a new capture loop was spawned during the call. -/
theorem start_stream_not_idempotent_cex :
    alistLookup (startStream [(7, oldWorker)] 7 "rtsp://cam7" "Cam 7").1 7 ≠
      some oldWorker ∧
    (startStream [(7, oldWorker)] 7 "rtsp://cam7" "Cam 7").2.2 = true := by
  decide

/-- C2 (amended): registry-level stream start is not idempotent: for a
camera id that already has a worker, `start_stream` removes the existing
worker and installs a freshly created, freshly started worker (counter 0,
one newly spawned capture loop), returning True; idempotence holds only at
the worker level, where `CameraStream.start` on an already-running worker
changes nothing. -/
theorem start_stream_restarts (streams : List (Int × CameraStream))
    (id : Int) (url name : String) (w : CameraStream)
    (hw : alistLookup streams id = some w) :
    (startStream streams id url name).1 =
      alistInsert (alistDelete streams id) id
        (streamStart (initStream id url name)) ∧
    alistLookup (startStream streams id url name).1 id =
      some (streamStart (initStream id url name)) ∧
    (streamStart (initStream id url name)).reconnect_attempts = 0 ∧
    (streamStart (initStream id url name)).threadGen = 1 ∧
    (startStream streams id url name).2.1 = true ∧
    (startStream streams id url name).2.2 = true ∧
    (w.is_running = true → streamStart w = w) := by
  refine ⟨?_, ?_, rfl, rfl, rfl, by simp [startStream, streamStart, initStream], ?_⟩
  · simp [startStream, stopStream, hw]
  · simp [startStream, stopStream, hw, alistInsert, alistLookup]
  · intro hrun
    simp [streamStart, hrun]

/-- Witness for C2 (amended): the registry holding only the running camera-7
worker. -/
theorem start_stream_restarts_witness :
    alistLookup [(7, oldWorker)] 7 = some oldWorker ∧
    ((startStream [(7, oldWorker)] 7 "rtsp://cam7" "Cam 7").1 =
        alistInsert (alistDelete [(7, oldWorker)] 7) 7
          (streamStart (initStream 7 "rtsp://cam7" "Cam 7")) ∧
      alistLookup (startStream [(7, oldWorker)] 7 "rtsp://cam7" "Cam 7").1 7 =
        some (streamStart (initStream 7 "rtsp://cam7" "Cam 7")) ∧
      (streamStart (initStream 7 "rtsp://cam7" "Cam 7")).reconnect_attempts = 0 ∧
      (streamStart (initStream 7 "rtsp://cam7" "Cam 7")).threadGen = 1 ∧
      (startStream [(7, oldWorker)] 7 "rtsp://cam7" "Cam 7").2.1 = true ∧
      (startStream [(7, oldWorker)] 7 "rtsp://cam7" "Cam 7").2.2 = true ∧
      (oldWorker.is_running = true → streamStart oldWorker = oldWorker)) :=
  ⟨by decide,
    start_stream_restarts [(7, oldWorker)] 7 "rtsp://cam7" "Cam 7" oldWorker
      (by decide)⟩

/-! ## Parsing helpers

Pure models of the Python library calls used by
`CameraRecorder._save_recording_db`: decimal-digit parsing, the regex
search for the date-time pattern, `datetime.strptime` with format
`%Y-%m-%d_%H-%M-%S` (including its range validation), and the `float`
constructor on plain decimal literals.  Timestamps are naive epoch seconds
as exact rationals. -/

/-- Value of a digit string (most significant first). -/
def digitsVal (cs : List Char) : Nat :=
  cs.foldl (fun a c => a * 10 + (c.toNat - 48)) 0

/-- All characters are ASCII decimal digits and there is at least one. -/
def allDigits (cs : List Char) : Bool :=
  !cs.isEmpty && cs.all (fun c => c.isDigit)

/-- Python `int(s)` on an optionally signed digit string. -/
def parsePyInt (s : String) : Option Int :=
  match s.data with
  | '-' :: rest => if allDigits rest then some (-(digitsVal rest : Int)) else none
  | '+' :: rest => if allDigits rest then some (digitsVal rest : Int) else none
  | cs => if allDigits cs then some (digitsVal cs : Int) else none

/-- Python `float(s)` on an optionally signed plain decimal literal
(digits with an optional decimal point), the shape of the epoch values the
encoder writes to the manifest. -/
def parseUnsignedFloat (cs : List Char) : Option ℚ :=
  let ip := cs.takeWhile (fun c => c ≠ '.')
  match cs.dropWhile (fun c => c ≠ '.') with
  | [] => if allDigits ip then some (digitsVal ip : ℚ) else none
  | _ :: fp =>
    if (!ip.isEmpty || !fp.isEmpty) && ip.all (fun c => c.isDigit) &&
        fp.all (fun c => c.isDigit) && !fp.contains '.' then
      some (mkRat (digitsVal ip * 10 ^ fp.length + digitsVal fp) (10 ^ fp.length))
    else none

def parseFloat (s : String) : Option ℚ :=
  match s.data with
  | '-' :: rest => (parseUnsignedFloat rest).map Neg.neg
  | '+' :: rest => parseUnsignedFloat rest
  | cs => parseUnsignedFloat cs

/-- Days from 1970-01-01 of a proleptic Gregorian civil date. -/
def daysFromCivil (y : Int) (m d : Nat) : Int :=
  let y1 : Int := if m ≤ 2 then y - 1 else y
  let era : Int := Int.fdiv y1 400
  let yoe : Int := y1 - era * 400
  let mp : Nat := (m + 9) % 12
  let doy : Int := ((153 * mp + 2) / 5 + d - 1 : Nat)
  let doe : Int := yoe * 365 + Int.ediv yoe 4 - Int.ediv yoe 100 + doy
  era * 146097 + doe - 719468

def isLeapYear (y : Int) : Bool :=
  (y % 4 == 0 && y % 100 != 0) || y % 400 == 0

def daysInMonth (y : Int) (m : Nat) : Nat :=
  if m = 2 then (if isLeapYear y then 29 else 28)
  else if m = 4 || m = 6 || m = 9 || m = 11 then 30
  else 31

/-- `datetime.strptime` with format `%Y-%m-%d_%H-%M-%S` applied to
already-separated numeric fields: validates the ranges (raising, i.e.
`none`, on an invalid date such as month 13) and yields naive epoch
seconds. -/
def strptimeYmdHms (y mo d h mi s : Nat) : Option ℚ :=
  if 1 ≤ y && 1 ≤ mo && mo ≤ 12 && 1 ≤ d && decide (d ≤ daysInMonth y mo) &&
      h ≤ 23 && mi ≤ 59 && s ≤ 59 then
    some (((daysFromCivil y mo d) * 86400 + (h * 3600 + mi * 60 + s : Nat) : Int) : ℚ)
  else none

/-- The template of `re.search` pattern
`(\d{4}-\d{2}-\d{2}_\d{2}-\d{2}-\d{2})`: `d` stands for a digit, any other
character for itself. -/
def dtTemplate : List Char := "dddd-dd-dd_dd-dd-dd".data

def matchesTemplate : List Char → List Char → Bool
  | [], _ => true
  | _ :: _, [] => false
  | t :: ts, c :: cs =>
    (if t = 'd' then c.isDigit else c == t) && matchesTemplate ts cs

/-- Leftmost match of the date-time pattern in the character list, as the
matched 19 characters. -/
def findDateTime : List Char → Option (List Char)
  | [] => none
  | c :: cs =>
    if matchesTemplate dtTemplate (c :: cs) then some ((c :: cs).take 19)
    else findDateTime cs

/-- `strptime` of the 19 matched characters with format
`%Y-%m-%d_%H-%M-%S`. -/
def parseDateTime (cs : List Char) : Option ℚ :=
  strptimeYmdHms (digitsVal (cs.take 4)) (digitsVal ((cs.drop 5).take 2))
    (digitsVal ((cs.drop 8).take 2)) (digitsVal ((cs.drop 11).take 2))
    (digitsVal ((cs.drop 14).take 2)) (digitsVal ((cs.drop 17).take 2))

/-- Python `int()` applied to a rational: truncation toward zero. -/
def truncToInt (q : ℚ) : Int := if 0 ≤ q then q.floor else q.ceil

/-! ## Segment records and manifest registration (recording_manager.py) -/

/-- A `Recording` row of the ledger (recordings/models.py, class Recording),
restricted to the fields the core writes.  Times are naive epoch seconds. -/
structure SegmentRecord where
  camera_id : Int
  filepath : String
  filename : String
  start_time : ℚ
  end_time : ℚ
  file_size : Nat
  duration : Int
  recording_date : Int
deriving Repr, DecidableEq

/-- The context `CameraRecorder._save_recording_db` reads beyond its three
arguments: whether `Camera.objects.get` finds the camera, the camera id and
directory, the current wall-clock time, the size of the segment file when
it exists (`none` models a missing file, stored as size 0), and the
configured segment duration. -/
structure SaveCtx where
  cameraExists : Bool
  camera_id : Int
  camera_dir : String
  now : ℚ
  fileSize : Option Nat
  segment_duration : Nat
deriving Repr, DecidableEq

/-- `CameraRecorder._save_recording_db` (lines 188-227): parses the segment
start time out of the filename (falling back to the current time when the
pattern is absent; a matched but invalid date makes `strptime` raise, so no
record is saved), derives the duration from the two manifest epoch strings
(falling back to the configured segment duration when either fails to
parse), and creates the record with end time = start time + duration.
Returns `none` when the save raises and no record is created. -/
def saveRecordingDb (ctx : SaveCtx) (filename startStr endStr : String) :
    Option SegmentRecord :=
  if !ctx.cameraExists then none
  else
    let startOpt : Option ℚ :=
      match findDateTime filename.data with
      | some ds => parseDateTime ds
      | none => some ctx.now
    match startOpt with
    | none => none
    | some st =>
      let dur : ℚ :=
        match parseFloat startStr, parseFloat endStr with
        | some a, some b => b - a
        | _, _ => (ctx.segment_duration : ℚ)
      some { camera_id := ctx.camera_id,
             filepath := ctx.camera_dir ++ "/" ++ filename,
             filename := filename,
             start_time := st,
             end_time := st + dur,
             file_size := ctx.fileSize.getD 0,
             duration := truncToInt dur,
             recording_date := (st / 86400).floor }

example :
    (saveRecordingDb ⟨true, 1, "cam", 0, some 10, 300⟩
      "Cam_2024-01-01_00-00-00.mp4" "100.5" "400.5").map
        (fun r => (r.start_time, r.end_time, r.duration)) =
      some (1704067200, 1704067500, 300) := by decide

theorem truncToInt_natCast (n : Nat) : truncToInt (n : ℚ) = (n : Int) := by
  simp [truncToInt, Rat.floor, Rat.den_natCast, Rat.num_natCast]

/-- C9: when `_save_recording_db` registers a completed segment from a
manifest line, the stored start time is the date-time parsed out of the
filename via the `name_YYYY-MM-DD_HH-MM-SS.ext` pattern when the pattern
is present, and the current time when the filename matches no pattern; the
duration is the difference of the two manifest epoch values when both
parse, and the configured segment duration when either fails to parse; and
the stored end time always equals the start time plus that duration. -/
theorem save_recording_semantics (ctx : SaveCtx) (fn s e : String)
    (r : SegmentRecord) (h : saveRecordingDb ctx fn s e = some r) :
    (findDateTime fn.data = none → r.start_time = ctx.now) ∧
    (∀ ds, findDateTime fn.data = some ds → parseDateTime ds = some r.start_time) ∧
    (∀ a b, parseFloat s = some a → parseFloat e = some b →
      r.duration = truncToInt (b - a) ∧ r.end_time = r.start_time + (b - a)) ∧
    (((parseFloat s) = none ∨ (parseFloat e) = none) →
      r.duration = (ctx.segment_duration : Int) ∧
      r.end_time = r.start_time + (ctx.segment_duration : ℚ)) := by
  unfold saveRecordingDb at h
  by_cases hc : ctx.cameraExists
  swap
  · simp [hc] at h
  simp only [hc, Bool.not_true, Bool.false_eq_true, if_false] at h
  rcases hdt : findDateTime fn.data with _ | ds <;>
    simp only [hdt] at h <;>
    [skip; rcases hpd : parseDateTime ds with _ | st] <;>
    [skip; simp only [hpd] at h; simp only [hpd] at h] <;>
    [skip; exact absurd h (by simp); skip] <;>
    rcases hps : parseFloat s with _ | a <;>
    rcases hpe : parseFloat e with _ | b <;>
    simp only [hps, hpe] at h <;>
    obtain rfl := (Option.some.inj h).symm <;>
    refine ⟨fun hnone => ?_, fun ds0 hds0 => ?_, fun a0 b0 ha0 hb0 => ?_,
      fun hfail => ?_⟩ <;>
    simp_all [truncToInt_natCast]

/-- The record produced when camera 1 (directory `cam`, file size 10,
configured duration 300) registers the manifest line
`Cam_2024-01-01_00-00-00.mp4,100.5,400.5`. -/
def saveWitnessRecord : SegmentRecord :=
  { camera_id := 1, filepath := "cam/Cam_2024-01-01_00-00-00.mp4",
    filename := "Cam_2024-01-01_00-00-00.mp4",
    start_time := 1704067200, end_time := 1704067500,
    file_size := 10, duration := 300, recording_date := 19723 }

/-- Witness for C9: registering the manifest line
`Cam_2024-01-01_00-00-00.mp4,100.5,400.5`. -/
theorem save_recording_semantics_witness :
    saveRecordingDb ⟨true, 1, "cam", 0, some 10, 300⟩
        "Cam_2024-01-01_00-00-00.mp4" "100.5" "400.5" = some saveWitnessRecord ∧
    ((findDateTime ("Cam_2024-01-01_00-00-00.mp4" : String).data = none →
        saveWitnessRecord.start_time = (0 : ℚ)) ∧
      (∀ ds, findDateTime ("Cam_2024-01-01_00-00-00.mp4" : String).data = some ds →
        parseDateTime ds = some saveWitnessRecord.start_time) ∧
      (∀ a b, parseFloat "100.5" = some a → parseFloat "400.5" = some b →
        saveWitnessRecord.duration = truncToInt (b - a) ∧
        saveWitnessRecord.end_time = saveWitnessRecord.start_time + (b - a)) ∧
      ((parseFloat "100.5" = none ∨ parseFloat "400.5" = none) →
        saveWitnessRecord.duration = ((300 : Nat) : Int) ∧
        saveWitnessRecord.end_time = saveWitnessRecord.start_time + ((300 : Nat) : ℚ))) :=
  ⟨by decide,
    save_recording_semantics ⟨true, 1, "cam", 0, some 10, 300⟩
      "Cam_2024-01-01_00-00-00.mp4" "100.5" "400.5" saveWitnessRecord (by decide)⟩

/-! ## Manifest tailing (recording_manager.py, `_monitor_loop` lines 254-280)

The tailing pass re-reads the whole manifest each iteration: one pass over
all rows, with the in-memory `processed_files` set starting empty (as it
does when the monitor loop, and hence the tailer, is restarted from
scratch) and the ledger carried along. -/

/-- `CameraRecorder._is_file_in_db` (lines 180-186). -/
def isFileInDb (db : List SegmentRecord) (fn : String) : Bool :=
  db.any (fun r => r.filename == fn)

structure TailState where
  db : List SegmentRecord
  processed : List String
deriving Repr, DecidableEq

/-- The body of `for row in reader` (lines 263-276): empty rows are
skipped; a row whose filename is already in `processed_files` is skipped;
a row with at least 3 fields is registered (after the ledger dedupe check)
and its filename marked processed; shorter rows are left unprocessed. -/
def processRow (ctx : SaveCtx) (st : TailState) (row : List String) : TailState :=
  match row with
  | [] => st
  | fn :: rest =>
    if fn ∈ st.processed then st
    else if 2 ≤ rest.length then
      let db1 :=
        if isFileInDb st.db fn then st.db
        else
          match saveRecordingDb ctx fn (rest.getD 0 "") (rest.getD 1 "") with
          | some r => st.db ++ [r]
          | none => st.db
      { db := db1, processed := fn :: st.processed }
    else st

/-- One from-scratch pass of the manifest tailer over the rows of the
manifest file, starting with an empty processed set. -/
def tailManifest (ctx : SaveCtx) (db : List SegmentRecord)
    (rows : List (List String)) : TailState :=
  rows.foldl (processRow ctx) { db := db, processed := [] }

/-- Whether `_save_recording_db` creates a record for this filename: it
depends only on the context and the filename, not on the two epoch
strings. -/
def saveSucceeds (ctx : SaveCtx) (fn : String) : Bool :=
  ctx.cameraExists &&
    (match findDateTime fn.data with
     | some ds => (parseDateTime ds).isSome
     | none => true)

theorem saveRecordingDb_isSome (ctx : SaveCtx) (fn s e : String) :
    (saveRecordingDb ctx fn s e).isSome = saveSucceeds ctx fn := by
  unfold saveRecordingDb saveSucceeds
  by_cases hc : ctx.cameraExists
  · simp only [hc, Bool.not_true, Bool.false_eq_true, if_false, Bool.true_and]
    rcases h : findDateTime fn.data with _ | ds
    · simp
    · rcases hp : parseDateTime ds with _ | v <;> simp [hp]
  · simp [hc]

theorem saveRecordingDb_filename (ctx : SaveCtx) (fn s e : String)
    (r : SegmentRecord) (h : saveRecordingDb ctx fn s e = some r) :
    r.filename = fn := by
  unfold saveRecordingDb at h
  by_cases hc : ctx.cameraExists
  · simp only [hc, Bool.not_true, Bool.false_eq_true, if_false] at h
    rcases hdt : findDateTime fn.data with _ | ds <;> simp only [hdt] at h
    · obtain rfl := (Option.some.inj h).symm; rfl
    · rcases hpd : parseDateTime ds with _ | st <;> simp only [hpd] at h
      · exact absurd h (by simp)
      · obtain rfl := (Option.some.inj h).symm; rfl
  · simp [hc] at h

theorem isFileInDb_iff (db : List SegmentRecord) (fn : String) :
    isFileInDb db fn = true ↔ fn ∈ db.map (fun r => r.filename) := by
  simp [isFileInDb, List.any_eq_true, List.mem_map]

theorem isFileInDb_append (db l : List SegmentRecord) (fn : String)
    (h : isFileInDb db fn = true) : isFileInDb (db ++ l) fn = true := by
  simp only [isFileInDb, List.any_append, Bool.or_eq_true]
  exact Or.inl h

/-- The filename is covered: either the ledger has it, or registering it
can never create a record. -/
def coveredFn (ctx : SaveCtx) (db : List SegmentRecord) (fn : String) : Prop :=
  isFileInDb db fn = true ∨ saveSucceeds ctx fn = false

/-- A row that will add nothing to the given ledger. -/
def goodRow (ctx : SaveCtx) (db : List SegmentRecord) : List String → Prop
  | [] => True
  | fn :: rest => 2 ≤ rest.length → coveredFn ctx db fn

/-- Every processed filename is covered by the current ledger. -/
def invProc (ctx : SaveCtx) (st : TailState) : Prop :=
  ∀ fn ∈ st.processed, coveredFn ctx st.db fn

theorem processRow_db_mono (ctx : SaveCtx) (st : TailState) (row : List String)
    (fn : String) (h : isFileInDb st.db fn = true) :
    isFileInDb (processRow ctx st row).db fn = true := by
  match row with
  | [] => exact h
  | g :: rest =>
    simp only [processRow]
    by_cases h1 : g ∈ st.processed
    · simp [h1, h]
    · by_cases h2 : 2 ≤ rest.length
      · simp only [h1, h2, if_true, if_false]
        by_cases h3 : isFileInDb st.db g = true
        · simp [h3, h]
        · have h3f : isFileInDb st.db g = false := by simpa using h3
          rcases hs : saveRecordingDb ctx g (rest.getD 0 "") (rest.getD 1 "") with _ | r <;>
            simp only [h3f, Bool.false_eq_true, if_false, hs] <;>
            [exact h; exact isFileInDb_append _ _ _ h]
      · simp [h1, h2, h]

theorem coveredFn_mono (ctx : SaveCtx) (db db1 : List SegmentRecord) (fn : String)
    (hmono : isFileInDb db fn = true → isFileInDb db1 fn = true)
    (h : coveredFn ctx db fn) : coveredFn ctx db1 fn := by
  rcases h with h | h
  · exact Or.inl (hmono h)
  · exact Or.inr h

theorem processRow_inv (ctx : SaveCtx) (st : TailState) (row : List String)
    (h : invProc ctx st) :
    invProc ctx (processRow ctx st row) ∧
    goodRow ctx (processRow ctx st row).db row := by
  match row with
  | [] => exact ⟨h, trivial⟩
  | g :: rest =>
    by_cases h1 : g ∈ st.processed
    · refine ⟨by simpa [processRow, h1] using h, ?_⟩
      intro hlen
      simp only [processRow, h1, if_true]
      exact h g h1
    · by_cases h2 : 2 ≤ rest.length
      · have hcov : coveredFn ctx (processRow ctx st (g :: rest)).db g := by
          simp only [processRow, h1, h2, if_true, if_false]
          by_cases h3 : isFileInDb st.db g = true
          · exact Or.inl (by simp [h3])
          · have h3f : isFileInDb st.db g = false := by simpa using h3
            rcases hs : saveRecordingDb ctx g (rest.getD 0 "") (rest.getD 1 "") with _ | r
            · refine Or.inr ?_
              have hss := saveRecordingDb_isSome ctx g (rest.getD 0 "") (rest.getD 1 "")
              rw [hs] at hss
              simpa using hss.symm
            · refine Or.inl ?_
              have hfn := saveRecordingDb_filename ctx g (rest.getD 0 "") (rest.getD 1 "") r hs
              simp only [h3f, Bool.false_eq_true, if_false, hs]
              simp [isFileInDb, hfn]
        refine ⟨?_, fun _ => hcov⟩
        intro fn hfn
        have hproc : (processRow ctx st (g :: rest)).processed = g :: st.processed := by
          simp [processRow, h1, h2]
        rw [hproc] at hfn
        rcases List.mem_cons.mp hfn with rfl | hmem
        · exact hcov
        · refine coveredFn_mono ctx st.db _ fn ?_ (h fn hmem)
          intro hdb
          exact processRow_db_mono ctx st (g :: rest) fn hdb
      · refine ⟨by simpa [processRow, h1, h2] using h, ?_⟩
        intro hlen
        exact absurd hlen h2

theorem foldl_db_mono (ctx : SaveCtx) (rows : List (List String))
    (st : TailState) (fn : String) (h : isFileInDb st.db fn = true) :
    isFileInDb ((rows.foldl (processRow ctx) st)).db fn = true := by
  induction rows generalizing st with
  | nil => exact h
  | cons row rest ih =>
    exact ih (processRow ctx st row) (processRow_db_mono ctx st row fn h)

theorem tailFold_inv (ctx : SaveCtx) (rows : List (List String)) (st : TailState)
    (h : invProc ctx st) :
    invProc ctx (rows.foldl (processRow ctx) st) ∧
    ∀ row ∈ rows, goodRow ctx (rows.foldl (processRow ctx) st).db row := by
  induction rows generalizing st with
  | nil => exact ⟨h, by simp⟩
  | cons row rest ih =>
    obtain ⟨hinv1, hgood1⟩ := processRow_inv ctx st row h
    obtain ⟨hinvf, hgoodf⟩ := ih (processRow ctx st row) hinv1
    refine ⟨hinvf, ?_⟩
    intro row0 hrow0
    rcases List.mem_cons.mp hrow0 with rfl | hmem
    · rcases row0 with _ | ⟨g, rest0⟩
      · trivial
      · intro hlen
        simp only [List.foldl_cons]
        refine coveredFn_mono ctx (processRow ctx st (g :: rest0)).db _ g ?_
          (hgood1 hlen)
        intro hdb
        exact foldl_db_mono ctx rest (processRow ctx st (g :: rest0)) g hdb
    · exact hgoodf row0 hmem

theorem processRow_stable (ctx : SaveCtx) (db0 : List SegmentRecord)
    (p : List String) (row : List String)
    (h : goodRow ctx db0 row) :
    (processRow ctx { db := db0, processed := p } row).db = db0 := by
  match row with
  | [] => rfl
  | g :: rest =>
    by_cases h1 : g ∈ p
    · simp [processRow, h1]
    · by_cases h2 : 2 ≤ rest.length
      · simp only [processRow, h1, h2, if_true, if_false]
        rcases h h2 with hdb | hfail
        · simp [hdb]
        · by_cases h3 : isFileInDb db0 g = true
          · simp [h3]
          · have h3f : isFileInDb db0 g = false := by simpa using h3
            have hss := saveRecordingDb_isSome ctx g (rest.getD 0 "") (rest.getD 1 "")
            rw [hfail] at hss
            rcases hs : saveRecordingDb ctx g (rest.getD 0 "") (rest.getD 1 "") with _ | r
            · simp [h3f, hs]
            · rw [hs] at hss; simp at hss
      · simp [processRow, h1, h2]

theorem tailFold_stable (ctx : SaveCtx) (rows : List (List String))
    (db0 : List SegmentRecord) (p : List String)
    (h : ∀ row ∈ rows, goodRow ctx db0 row) :
    (rows.foldl (processRow ctx) { db := db0, processed := p }).db = db0 := by
  induction rows generalizing p with
  | nil => rfl
  | cons row rest ih =>
    have hdb := processRow_stable ctx db0 p row (h row (by simp))
    have hee : (⟨(processRow ctx { db := db0, processed := p } row).db,
        (processRow ctx { db := db0, processed := p } row).processed⟩ : TailState) =
        processRow ctx { db := db0, processed := p } row := rfl
    have heq : processRow ctx { db := db0, processed := p } row =
        { db := db0,
          processed := (processRow ctx { db := db0, processed := p } row).processed } := by
      rw [← hee, hdb]
    simp only [List.foldl_cons]
    rw [heq]
    exact ih _ (fun row0 hrow0 => h row0 (List.mem_cons_of_mem _ hrow0))

theorem processRow_nodup (ctx : SaveCtx) (st : TailState) (row : List String)
    (h : (st.db.map (fun r => r.filename)).Nodup) :
    ((processRow ctx st row).db.map (fun r => r.filename)).Nodup := by
  match row with
  | [] => exact h
  | g :: rest =>
    by_cases h1 : g ∈ st.processed
    · simpa [processRow, h1] using h
    · by_cases h2 : 2 ≤ rest.length
      · simp only [processRow, h1, h2, if_true, if_false]
        by_cases h3 : isFileInDb st.db g = true
        · simpa [h3] using h
        · have h3f : isFileInDb st.db g = false := by simpa using h3
          have hnotin : g ∉ st.db.map (fun r => r.filename) := by
            intro hmem
            rw [← isFileInDb_iff] at hmem
            simp [hmem] at h3f
          rcases hs : saveRecordingDb ctx g (rest.getD 0 "") (rest.getD 1 "") with _ | r
          · simpa [h3f, hs] using h
          · have hfn := saveRecordingDb_filename ctx g (rest.getD 0 "") (rest.getD 1 "") r hs
            simp only [h3f, Bool.false_eq_true, if_false, hs]
            simp only [List.map_append, List.map_cons, List.map_nil]
            rw [List.nodup_append]
            exact ⟨h, by simp, by simpa [hfn] using hnotin⟩
      · simpa [processRow, h1, h2] using h

theorem tailFold_nodup (ctx : SaveCtx) (rows : List (List String)) (st : TailState)
    (h : (st.db.map (fun r => r.filename)).Nodup) :
    (((rows.foldl (processRow ctx) st)).db.map (fun r => r.filename)).Nodup := by
  induction rows generalizing st with
  | nil => exact h
  | cons row rest ih =>
    exact ih (processRow ctx st row) (processRow_nodup ctx st row h)

/-- C4: manifest tailing is idempotent and preserves filename uniqueness:
one from-scratch pass may add records, but a second from-scratch pass over
the same rows starting from the resulting ledger adds nothing (each line's
filename is checked against the ledger before a record is created), and if
the ledger holds no two records with the same filename beforehand, it
still holds none afterwards. -/
theorem manifest_tailing_idempotent (ctx : SaveCtx) (db : List SegmentRecord)
    (rows : List (List String))
    (hdb : (db.map (fun r => r.filename)).Nodup) :
    (tailManifest ctx (tailManifest ctx db rows).db rows).db =
      (tailManifest ctx db rows).db ∧
    ((tailManifest ctx db rows).db.map (fun r => r.filename)).Nodup := by
  constructor
  · have hinv0 : invProc ctx { db := db, processed := [] } := by
      intro fn hfn
      simp at hfn
    obtain ⟨hinvf, hgoodf⟩ := tailFold_inv ctx rows { db := db, processed := [] } hinv0
    exact tailFold_stable ctx rows (tailManifest ctx db rows).db [] hgoodf
  · exact tailFold_nodup ctx rows { db := db, processed := [] } hdb

/-- Witness for C4: camera 1 processes a three-row manifest whose first two
rows are identical, starting from a singleton ledger; the second
from-scratch pass changes nothing and filenames stay unique. -/
theorem manifest_tailing_idempotent_witness :
    (([saveWitnessRecord] : List SegmentRecord).map (fun r => r.filename)).Nodup ∧
    ((tailManifest ⟨true, 1, "cam", 0, some 10, 300⟩
        (tailManifest ⟨true, 1, "cam", 0, some 10, 300⟩ [saveWitnessRecord]
          [["A_2024-01-01_00-00-00.mp4", "0", "300"],
           ["A_2024-01-01_00-00-00.mp4", "0", "300"],
           ["Cam_2024-01-01_00-00-00.mp4", "100.5", "400.5"],
           ["B_2024-01-01_00-05-00.mp4", "300", "600"]]).db
        [["A_2024-01-01_00-00-00.mp4", "0", "300"],
         ["A_2024-01-01_00-00-00.mp4", "0", "300"],
         ["Cam_2024-01-01_00-00-00.mp4", "100.5", "400.5"],
         ["B_2024-01-01_00-05-00.mp4", "300", "600"]]).db =
      (tailManifest ⟨true, 1, "cam", 0, some 10, 300⟩ [saveWitnessRecord]
        [["A_2024-01-01_00-00-00.mp4", "0", "300"],
         ["A_2024-01-01_00-00-00.mp4", "0", "300"],
         ["Cam_2024-01-01_00-00-00.mp4", "100.5", "400.5"],
         ["B_2024-01-01_00-05-00.mp4", "300", "600"]]).db ∧
      ((tailManifest ⟨true, 1, "cam", 0, some 10, 300⟩ [saveWitnessRecord]
        [["A_2024-01-01_00-00-00.mp4", "0", "300"],
         ["A_2024-01-01_00-00-00.mp4", "0", "300"],
         ["Cam_2024-01-01_00-00-00.mp4", "100.5", "400.5"],
         ["B_2024-01-01_00-05-00.mp4", "300", "600"]]).db.map
          (fun r => r.filename)).Nodup) :=
  ⟨by decide,
    manifest_tailing_idempotent ⟨true, 1, "cam", 0, some 10, 300⟩ [saveWitnessRecord]
      [["A_2024-01-01_00-00-00.mp4", "0", "300"],
       ["A_2024-01-01_00-00-00.mp4", "0", "300"],
       ["Cam_2024-01-01_00-00-00.mp4", "100.5", "400.5"],
       ["B_2024-01-01_00-05-00.mp4", "300", "600"]] (by decide)⟩

/-! ## Failsafe monitor (failsafe_monitor.py)

The disk-space check, the bounded cleanup passes, the orphan-file
reconciliation and the recording-health check, each modelled per tick over
explicit inputs (free bytes, file sizes, the ledger, the filesystem and the
registries). -/

/-- The pair of keyword arguments of a `_cleanup_old_recordings` call:
`(force_purge, quota_exceeded)`. -/
structure CleanupArgs where
  force_purge : Bool
  quota_exceeded : Bool
deriving Repr, DecidableEq

/-- `FailsafeMonitor._check_disk_space` (lines 113-149).  `freeBytes` is
`stat.f_bavail * stat.f_frsize`; `fileSizes` are the sizes of all regular
files under the recordings root (the recursive glob).  Returns the cleanup
call made this tick, if any, together with whether the quota comparison
(the recursive usage computation) was performed. -/
def checkDiskSpace (freeBytes : Nat) (fileSizes : List Nat)
    (max_storage_gb : Nat) : Option CleanupArgs × Bool :=
  let free_gb : ℚ := (freeBytes : ℚ) / ((1024 : ℚ) ^ 3)
  if free_gb < 2 then (some ⟨true, false⟩, false)
  else
    let used_gb : ℚ := ((fileSizes.sum : ℚ)) / ((1024 : ℚ) ^ 3)
    if (max_storage_gb : ℚ) < used_gb then (some ⟨false, true⟩, true)
    else (none, true)

/-- C5: the disk-space check is two-tier with strict priority: with free
space below 2 GB the tick immediately requests the aggressive purge
(`force_purge`) and skips the quota comparison; otherwise the quota
comparison is performed on the recursive total of file sizes under the
recordings root, requesting a soft purge (`quota_exceeded`) exactly when
that usage exceeds the configured quota, and never the aggressive purge. -/
theorem disk_check_two_tier (freeBytes : Nat) (fileSizes : List Nat)
    (maxGb : Nat) :
    ((freeBytes : ℚ) / ((1024 : ℚ) ^ 3) < 2 →
      checkDiskSpace freeBytes fileSizes maxGb = (some ⟨true, false⟩, false)) ∧
    (¬ ((freeBytes : ℚ) / ((1024 : ℚ) ^ 3) < 2) →
      (checkDiskSpace freeBytes fileSizes maxGb).2 = true ∧
      ((checkDiskSpace freeBytes fileSizes maxGb).1 = some ⟨false, true⟩ ↔
        (maxGb : ℚ) < (fileSizes.sum : ℚ) / ((1024 : ℚ) ^ 3)) ∧
      (checkDiskSpace freeBytes fileSizes maxGb).1 ≠ some ⟨true, false⟩) := by
  constructor
  · intro hlow
    simp [checkDiskSpace, hlow]
  · intro hok
    unfold checkDiskSpace
    rw [if_neg hok]
    by_cases hq : (maxGb : ℚ) < (fileSizes.sum : ℚ) / ((1024 : ℚ) ^ 3)
    · rw [if_pos hq]
      refine ⟨rfl, by simpa using hq, by simp⟩
    · rw [if_neg hq]
      refine ⟨rfl, by simpa using hq, by simp⟩

/-- Witness for C5, critical side: 1 GB free forces the aggressive purge
with the quota skipped; quota side: 3 GB free with 5 GB used against a
4 GB quota yields the soft purge. -/
theorem disk_check_two_tier_witness :
    ((((1073741824 : Nat) : ℚ) / ((1024 : ℚ) ^ 3) < 2 →
      checkDiskSpace 1073741824 [1073741824] 4 = (some ⟨true, false⟩, false)) ∧
    (¬ (((1073741824 : Nat) : ℚ) / ((1024 : ℚ) ^ 3) < 2) →
      (checkDiskSpace 1073741824 [1073741824] 4).2 = true ∧
      ((checkDiskSpace 1073741824 [1073741824] 4).1 = some ⟨false, true⟩ ↔
        ((4 : Nat) : ℚ) < (([1073741824].sum : ℚ)) / ((1024 : ℚ) ^ 3)) ∧
      (checkDiskSpace 1073741824 [1073741824] 4).1 ≠ some ⟨true, false⟩)) ∧
    checkDiskSpace 1073741824 [1073741824] 4 = (some ⟨true, false⟩, false) ∧
    checkDiskSpace 3221225472 [2147483648, 3221225472] 4 =
      (some ⟨false, true⟩, true) ∧
    checkDiskSpace 3221225472 [2147483648] 4 = (none, true) := by
  refine ⟨disk_check_two_tier 1073741824 [1073741824] 4, ?_, ?_, ?_⟩
  · exact (disk_check_two_tier 1073741824 [1073741824] 4).1 (by norm_num)
  · decide
  · decide

/-- Ascending order on segment start times, the `order_by('start_time')` of
the cleanup queries. -/
def startLe (a b : SegmentRecord) : Prop := a.start_time ≤ b.start_time

instance : DecidableRel startLe :=
  fun a b => inferInstanceAs (Decidable (a.start_time ≤ b.start_time))

instance : IsTotal SegmentRecord startLe :=
  ⟨fun a b => le_total a.start_time b.start_time⟩

instance : IsTrans SegmentRecord startLe :=
  ⟨fun _ _ _ hab hbc => le_trans hab hbc⟩

def sortByStart (db : List SegmentRecord) : List SegmentRecord :=
  List.insertionSort startLe db

/-- Survives the given deletions (records are identified by their unique
filename). -/
def notDeleted (victims : List SegmentRecord) (r : SegmentRecord) : Bool :=
  !(victims.any (fun v => v.filename == r.filename))

/-- `FailsafeMonitor._cleanup_old_recordings` (lines 269-308), as the two
batches of deleted records of one invocation: the retention pass takes the
oldest 50 records older than the retention cutoff; afterwards, when
`force_purge` or `quota_exceeded` is set, the emergency/quota pass takes
the oldest of the remaining records irrespective of age, 100 of them under
`force_purge` and 20 under `quota_exceeded`. -/
def cleanupOldRecordings (db : List SegmentRecord) (now : ℚ)
    (retention_days : Nat) (args : CleanupArgs) :
    List SegmentRecord × List SegmentRecord :=
  let cutoff : ℚ := now - (retention_days : ℚ) * 86400
  let expired := (sortByStart (db.filter
    (fun r => decide (r.start_time < cutoff)))).take 50
  let remaining := db.filter (notDeleted expired)
  let purge :=
    if args.force_purge || args.quota_exceeded then
      (sortByStart remaining).take (if args.force_purge then 100 else 20)
    else []
  (expired, purge)

theorem sortByStart_sorted (db : List SegmentRecord) :
    List.Sorted startLe (sortByStart db) :=
  List.sorted_insertionSort startLe db

theorem sortByStart_mem (db : List SegmentRecord) (r : SegmentRecord) :
    r ∈ sortByStart db ↔ r ∈ db :=
  (List.perm_insertionSort startLe db).mem_iff

theorem take_sorted_dominates (l : List SegmentRecord) (n : Nat)
    (h : List.Sorted startLe l) :
    ∀ a ∈ l.take n, ∀ b ∈ l.drop n, startLe a b := by
  have hp : List.Pairwise startLe (l.take n ++ l.drop n) := by
    rw [List.take_append_drop]
    exact h
  exact (List.pairwise_append.mp hp).2.2

/-- C6: each cleanup invocation is bounded and ordered.  Retention pass:
every deleted record is from the ledger and strictly older than now minus
the retention window, at most 50 are deleted, they are taken in ascending
start-time order, and each of them is no younger than any expired record
left behind.  Emergency/quota pass: at most 100 records are deleted under
`force_purge` and at most 20 under a soft quota breach, irrespective of
age, in ascending start-time order, each no younger than any record left
behind; with neither flag set the pass deletes nothing. -/
theorem cleanup_bounded_ordered (db : List SegmentRecord) (now : ℚ)
    (rd : Nat) (args : CleanupArgs) :
    (∀ r ∈ (cleanupOldRecordings db now rd args).1,
      r ∈ db ∧ r.start_time < now - (rd : ℚ) * 86400) ∧
    (cleanupOldRecordings db now rd args).1.length ≤ 50 ∧
    List.Sorted startLe (cleanupOldRecordings db now rd args).1 ∧
    (∀ r ∈ (cleanupOldRecordings db now rd args).1,
      ∀ q ∈ (sortByStart (db.filter
        (fun r0 => decide (r0.start_time < now - (rd : ℚ) * 86400)))).drop 50,
      startLe r q) ∧
    (args.force_purge = true →
      (cleanupOldRecordings db now rd args).2.length ≤ 100) ∧
    (args.force_purge = false → args.quota_exceeded = true →
      (cleanupOldRecordings db now rd args).2.length ≤ 20) ∧
    (args.force_purge = false → args.quota_exceeded = false →
      (cleanupOldRecordings db now rd args).2 = []) ∧
    (∀ r ∈ (cleanupOldRecordings db now rd args).2, r ∈ db) ∧
    List.Sorted startLe (cleanupOldRecordings db now rd args).2 ∧
    (∀ r ∈ (cleanupOldRecordings db now rd args).2,
      ∀ q ∈ (sortByStart (db.filter
        (notDeleted (cleanupOldRecordings db now rd args).1))).drop
          (if args.force_purge then 100 else 20),
      startLe r q) := by
  obtain ⟨fp, qe⟩ := args
  simp only [cleanupOldRecordings]
  refine ⟨?_, ?_, ?_, ?_, ?_, ?_, ?_, ?_, ?_, ?_⟩
  · intro r hr
    have hrE := List.mem_of_mem_take hr
    rw [sortByStart_mem] at hrE
    have := List.mem_filter.mp hrE
    exact ⟨this.1, by simpa using this.2⟩
  · exact List.length_take_le 50 _
  · exact (sortByStart_sorted _).sublist (List.take_sublist 50 _)
  · intro r hr q hq
    exact take_sorted_dominates _ 50 (sortByStart_sorted _) r hr q hq
  · intro hfp
    subst hfp
    simp only [Bool.true_or, if_true]
    exact List.length_take_le 100 _
  · intro hfp hqe
    subst hfp; subst hqe
    simp only [Bool.false_or, if_true, Bool.false_eq_true, if_false]
    exact List.length_take_le 20 _
  · intro hfp hqe
    subst hfp; subst hqe
    simp
  · intro r hr
    rcases hfq : fp || qe with _ | _
    · simp [hfq] at hr
    · simp only [hfq, if_true] at hr
      have hrE := List.mem_of_mem_take hr
      rw [sortByStart_mem] at hrE
      exact (List.mem_filter.mp hrE).1
  · rcases hfq : fp || qe with _ | _
    · simp [hfq]
    · simp only [hfq, if_true]
      exact (sortByStart_sorted _).sublist (List.take_sublist _ _)
  · intro r hr q hq
    rcases hfq : fp || qe with _ | _
    · simp [hfq] at hr
    · simp only [hfq, if_true] at hr
      exact take_sorted_dominates _ _ (sortByStart_sorted _) r hr q hq

/-- A three-record ledger for exercising the cleanup passes: two records
older than the cutoff (out of order) and one recent one. -/
def cleanupDb : List SegmentRecord :=
  [{ camera_id := 1, filepath := "p1", filename := "A.mp4", start_time := 86490,
     end_time := 86790, file_size := 5, duration := 300, recording_date := 1 },
   { camera_id := 1, filepath := "p2", filename := "B.mp4", start_time := 10,
     end_time := 310, file_size := 5, duration := 300, recording_date := 0 },
   { camera_id := 2, filepath := "p3", filename := "C.mp4", start_time := 100000,
     end_time := 100300, file_size := 5, duration := 300, recording_date := 1 }]

/-- Witness for C6: a forced purge over `cleanupDb` with a 1-day retention
window at time 172900. -/
theorem cleanup_bounded_ordered_witness :
    (⟨true, false⟩ : CleanupArgs).force_purge = true ∧
    ((∀ r ∈ (cleanupOldRecordings cleanupDb 172900 1 ⟨true, false⟩).1,
      r ∈ cleanupDb ∧ r.start_time < 172900 - ((1 : Nat) : ℚ) * 86400) ∧
    (cleanupOldRecordings cleanupDb 172900 1 ⟨true, false⟩).1.length ≤ 50 ∧
    List.Sorted startLe (cleanupOldRecordings cleanupDb 172900 1 ⟨true, false⟩).1 ∧
    (∀ r ∈ (cleanupOldRecordings cleanupDb 172900 1 ⟨true, false⟩).1,
      ∀ q ∈ (sortByStart (cleanupDb.filter
        (fun r0 => decide (r0.start_time < 172900 - ((1 : Nat) : ℚ) * 86400)))).drop 50,
      startLe r q) ∧
    ((⟨true, false⟩ : CleanupArgs).force_purge = true →
      (cleanupOldRecordings cleanupDb 172900 1 ⟨true, false⟩).2.length ≤ 100) ∧
    ((⟨true, false⟩ : CleanupArgs).force_purge = false →
      (⟨true, false⟩ : CleanupArgs).quota_exceeded = true →
      (cleanupOldRecordings cleanupDb 172900 1 ⟨true, false⟩).2.length ≤ 20) ∧
    ((⟨true, false⟩ : CleanupArgs).force_purge = false →
      (⟨true, false⟩ : CleanupArgs).quota_exceeded = false →
      (cleanupOldRecordings cleanupDb 172900 1 ⟨true, false⟩).2 = []) ∧
    (∀ r ∈ (cleanupOldRecordings cleanupDb 172900 1 ⟨true, false⟩).2,
      r ∈ cleanupDb) ∧
    List.Sorted startLe (cleanupOldRecordings cleanupDb 172900 1 ⟨true, false⟩).2 ∧
    (∀ r ∈ (cleanupOldRecordings cleanupDb 172900 1 ⟨true, false⟩).2,
      ∀ q ∈ (sortByStart (cleanupDb.filter
        (notDeleted (cleanupOldRecordings cleanupDb 172900 1 ⟨true, false⟩).1))).drop
          (if (⟨true, false⟩ : CleanupArgs).force_purge then 100 else 20),
      startLe r q)) :=
  ⟨rfl, cleanup_bounded_ordered cleanupDb 172900 1 ⟨true, false⟩⟩

/-! ## Orphan reconciliation (failsafe_monitor.py, `_check_orphan_files`,
lines 151-212)

A filesystem file is given by its path string, its path components
(`Path.parts`), its final component name, and its stat size and
modification time. -/

structure FsFile where
  filepath : String
  parts : List String
  name : String
  size : Nat
  mtime : ℚ
deriving Repr, DecidableEq

/-- What the orphan check does with one file.  `deleteFile` never occurs;
it is present so that "skipped, never deleted" is expressible. -/
inductive FileAction where
  | insertRec (r : SegmentRecord)
  | skip
  | deleteFile
deriving Repr, DecidableEq

/-- Python `folder.replace("camera_", "")`: removes every non-overlapping
occurrence of `camera_`, scanning left to right. -/
def stripCameraOccurrences : List Char → List Char
  | 'c' :: 'a' :: 'm' :: 'e' :: 'r' :: 'a' :: '_' :: rest =>
    stripCameraOccurrences rest
  | c :: cs => c :: stripCameraOccurrences cs
  | [] => []

/-- The `for part in parts` loop with `break` (lines 176-181): the first
path component starting with `camera_`. -/
def findCameraFolder (parts : List String) : Option String :=
  parts.find? (fun p => ("camera_".data).isPrefixOf p.data)

/-- The per-file body of `_check_orphan_files` (lines 167-206): files not
produced by the `**/*.mp4` glob are not visited; a file whose path is
already in the ledger is not an orphan; otherwise the owning camera is
inferred from the `camera_{id}` folder-name convention and resolved, and
on success a best-effort record is inserted from the file size and
modification time with the hard-coded 300-second duration; on any failure
the file is skipped (the exception is logged), never deleted. -/
def orphanFileAction (cameras : List Int) (dbFilepaths : List String)
    (f : FsFile) : FileAction :=
  if ¬ ((".mp4".data).isSuffixOf f.name.data) then .skip
  else if f.filepath ∈ dbFilepaths then .skip
  else
    match findCameraFolder f.parts with
    | none => .skip
    | some folder =>
      match parsePyInt (String.mk (stripCameraOccurrences folder.data)) with
      | none => .skip
      | some cid =>
        if cid ∈ cameras then
          .insertRec { camera_id := cid, filepath := f.filepath,
                       filename := f.name, start_time := f.mtime,
                       end_time := f.mtime + 300, file_size := f.size,
                       duration := 300,
                       recording_date := (f.mtime / 86400).floor }
        else .skip

/-- For comparison with `orphanFileAction` only, this follows the spec
words "insert a best-effort SegmentRecord using filesystem size and
modification time, assuming the configured default segment duration",
taking the duration from the settings snapshot. -/
def orphanFileActionSpec (segment_duration : Nat) (cameras : List Int)
    (dbFilepaths : List String) (f : FsFile) : FileAction :=
  if ¬ ((".mp4".data).isSuffixOf f.name.data) then .skip
  else if f.filepath ∈ dbFilepaths then .skip
  else
    match findCameraFolder f.parts with
    | none => .skip
    | some folder =>
      match parsePyInt (String.mk (stripCameraOccurrences folder.data)) with
      | none => .skip
      | some cid =>
        if cid ∈ cameras then
          .insertRec { camera_id := cid, filepath := f.filepath,
                       filename := f.name, start_time := f.mtime,
                       end_time := f.mtime + (segment_duration : ℚ),
                       file_size := f.size,
                       duration := (segment_duration : Int),
                       recording_date := (f.mtime / 86400).floor }
        else .skip

/-- The orphan file of the spec scenario: an mp4 under `camera_7` with no
ledger record. -/
def orphanFile : FsFile :=
  { filepath := "root/camera_7/X.mp4", parts := ["root", "camera_7", "X.mp4"],
    name := "X.mp4", size := 42, mtime := 7000000 }

/-- C7 counterexample: with the configured segment duration set to 600
seconds, the orphan check still inserts the record with the hard-coded
300-second duration (end time = modification time + 300), not the
configured one: the record differs from the one the spec words describe. -/
theorem orphan_duration_cex :
    orphanFileAction [7] [] orphanFile =
      .insertRec { camera_id := 7, filepath := "root/camera_7/X.mp4",
                   filename := "X.mp4", start_time := 7000000,
                   end_time := 7000300, file_size := 42, duration := 300,
                   recording_date := 81 } ∧
    orphanFileActionSpec 600 [7] [] orphanFile =
      .insertRec { camera_id := 7, filepath := "root/camera_7/X.mp4",
                   filename := "X.mp4", start_time := 7000000,
                   end_time := 7000600, file_size := 42, duration := 600,
                   recording_date := 81 } ∧
    orphanFileAction [7] [] orphanFile ≠ orphanFileActionSpec 600 [7] [] orphanFile := by
  refine ⟨by decide, by decide, by decide⟩

/-- C7 (amended): for every orphan media file whose owning camera is
inferred from the `camera_{id}` directory name and resolved in the ledger,
the orphan check inserts a record with the file size as its byte size, the
modification time as its start, and the hard-coded 300-second duration
(end = mtime + 300), regardless of the configured segment duration; a file
whose camera folder is absent, whose id does not parse, or whose camera is
unknown is skipped; and no file is ever deleted by the check. -/
theorem orphan_check_semantics (cameras : List Int) (dbps : List String)
    (f g : FsFile) (folder folder2 : String) (cid cid2 : Int)
    (hmp4 : (".mp4".data).isSuffixOf f.name.data = true)
    (horphan : f.filepath ∉ dbps)
    (hfolder : findCameraFolder f.parts = some folder)
    (hparse : parsePyInt (String.mk (stripCameraOccurrences folder.data)) =
      some cid)
    (hcam : cid ∈ cameras) :
    orphanFileAction cameras dbps f =
      .insertRec { camera_id := cid, filepath := f.filepath,
                   filename := f.name, start_time := f.mtime,
                   end_time := f.mtime + 300, file_size := f.size,
                   duration := 300,
                   recording_date := (f.mtime / 86400).floor } ∧
    orphanFileAction cameras dbps g ≠ .deleteFile ∧
    (findCameraFolder g.parts = none → orphanFileAction cameras dbps g ≠
      .insertRec (SegmentRecord.mk 0 "" "" 0 0 0 0 0) →
      True) ∧
    (findCameraFolder g.parts = none →
      ((".mp4".data).isSuffixOf g.name.data = true) → g.filepath ∉ dbps →
      orphanFileAction cameras dbps g = .skip) ∧
    (findCameraFolder g.parts = some folder2 →
      parsePyInt (String.mk (stripCameraOccurrences folder2.data)) = none →
      orphanFileAction cameras dbps g = .skip) ∧
    (findCameraFolder g.parts = some folder2 →
      parsePyInt (String.mk (stripCameraOccurrences folder2.data)) = some cid2 →
      cid2 ∉ cameras →
      orphanFileAction cameras dbps g = .skip) := by
  refine ⟨?_, ?_, fun _ _ => trivial, ?_, ?_, ?_⟩
  · simp [orphanFileAction, hmp4, horphan, hfolder, hparse, hcam]
  · unfold orphanFileAction
    split
    · simp
    · split
      · simp
      · split
        · simp
        · split
          · simp
          · split <;> simp
  · intro hnone hg hdb
    simp [orphanFileAction, hg, hdb, hnone]
  · intro hsome hparse
    unfold orphanFileAction
    split
    · rfl
    · split
      · rfl
      · simp only [hsome, hparse]
  · intro hsome hparse hnot
    unfold orphanFileAction
    split
    · rfl
    · split
      · rfl
      · simp only [hsome, hparse]
        simp [hnot]

/-- Witness for C7 (amended): the spec scenario file under `camera_7`
against a ledger knowing camera 7, plus a file with no camera folder. -/
theorem orphan_check_semantics_witness :
    ((".mp4".data).isSuffixOf orphanFile.name.data = true ∧
      orphanFile.filepath ∉ ([] : List String) ∧
      findCameraFolder orphanFile.parts = some "camera_7" ∧
      parsePyInt (String.mk (stripCameraOccurrences ("camera_7" : String).data)) =
        some 7 ∧
      (7 : Int) ∈ [(7 : Int)]) ∧
    (orphanFileAction [7] [] orphanFile =
      .insertRec { camera_id := 7, filepath := orphanFile.filepath,
                   filename := orphanFile.name, start_time := orphanFile.mtime,
                   end_time := orphanFile.mtime + 300, file_size := orphanFile.size,
                   duration := 300,
                   recording_date := (orphanFile.mtime / 86400).floor } ∧
     orphanFileAction [7] []
        ⟨"root/misc/Y.mp4", ["root", "misc", "Y.mp4"], "Y.mp4", 1, 0⟩ ≠
        .deleteFile ∧
     (findCameraFolder (["root", "misc", "Y.mp4"] : List String) = none →
        orphanFileAction [7] []
          ⟨"root/misc/Y.mp4", ["root", "misc", "Y.mp4"], "Y.mp4", 1, 0⟩ ≠
          .insertRec (SegmentRecord.mk 0 "" "" 0 0 0 0 0) → True) ∧
     (findCameraFolder (["root", "misc", "Y.mp4"] : List String) = none →
        ((".mp4".data).isSuffixOf ("Y.mp4" : String).data = true) →
        ("root/misc/Y.mp4" : String) ∉ ([] : List String) →
        orphanFileAction [7] []
          ⟨"root/misc/Y.mp4", ["root", "misc", "Y.mp4"], "Y.mp4", 1, 0⟩ = .skip) ∧
     (findCameraFolder (["root", "misc", "Y.mp4"] : List String) =
        some "camera_x" →
        parsePyInt (String.mk (stripCameraOccurrences ("camera_x" : String).data)) =
          none →
        orphanFileAction [7] []
          ⟨"root/misc/Y.mp4", ["root", "misc", "Y.mp4"], "Y.mp4", 1, 0⟩ = .skip) ∧
     (findCameraFolder (["root", "misc", "Y.mp4"] : List String) =
        some "camera_x" →
        parsePyInt (String.mk (stripCameraOccurrences ("camera_x" : String).data)) =
          some 9 →
        (9 : Int) ∉ [(7 : Int)] →
        orphanFileAction [7] []
          ⟨"root/misc/Y.mp4", ["root", "misc", "Y.mp4"], "Y.mp4", 1, 0⟩ = .skip)) :=
  ⟨by decide,
    orphan_check_semantics [7] [] orphanFile
      ⟨"root/misc/Y.mp4", ["root", "misc", "Y.mp4"], "Y.mp4", 1, 0⟩
      "camera_7" "camera_x" 7 9 (by decide) (by decide) (by decide) (by decide)
      (by decide)⟩

/-! ## Recording registry (recording_manager.py, class RecordingManager)
and recording-health check (failsafe_monitor.py, lines 71-111) -/

/-- The per-camera recorder as seen by the registry. -/
structure RecorderEntry where
  camera_name : String
  is_recording : Bool
deriving Repr, DecidableEq

/-- `CameraRecorder.start` (lines 123-140), driven by `launchOk`, the
boolean result of `_start_ffmpeg_process`: sets `is_recording`, then
resets it to False when the launch fails.  No exception escapes.  The
second component records that a launch was attempted. -/
def recorderEntryStart (r : RecorderEntry) (launchOk : Bool) :
    RecorderEntry × Bool :=
  if r.is_recording then (r, false)
  else if launchOk then ({ r with is_recording := true }, true)
  else ({ r with is_recording := false }, true)

/-- `RecordingManager.start_recording` (lines 317-331): True immediately
when the id is already registered; otherwise the recorder is constructed
(`ctorOk` is whether the constructor succeeds; on an exception the except
branch returns False), registered, and started.  Returns (new registry,
returned boolean, whether an encoder launch was attempted). -/
def startRecording (recorders : List (Int × RecorderEntry)) (cid : Int)
    (name : String) (ctorOk launchOk : Bool) :
    List (Int × RecorderEntry) × Bool × Bool :=
  match alistLookup recorders cid with
  | some _ => (recorders, true, false)
  | none =>
    if !ctorOk then (recorders, false, false)
    else
      let r1 := (recorderEntryStart ⟨name, false⟩ launchOk).1
      (alistInsert recorders cid r1, true, true)

/-- `RecordingManager.is_recording` (lines 339-341): the id is registered
and its recorder's flag is set. -/
def managerIsRecording (recorders : List (Int × RecorderEntry))
    (cid : Int) : Bool :=
  match alistLookup recorders cid with
  | some r => r.is_recording
  | none => false

theorem alistLookup_insert {β : Type} (l : List (Int × β)) (k : Int) (v : β) :
    alistLookup (alistInsert l k v) k = some v := by
  simp [alistLookup, alistInsert, List.find?]

/-- C10: when the encoder fails to launch for a fresh camera id,
`start_recording` still returns True (with a launch attempted), the
recorder stays registered with `is_recording` False, `is_recording(cid)`
reports False, and every subsequent `start_recording` call for that id
returns True immediately, launching nothing and changing nothing. -/
theorem start_recording_false_positive (recorders : List (Int × RecorderEntry))
    (cid : Int) (name name2 : String) (ctorOk2 launchOk2 : Bool)
    (h : alistLookup recorders cid = none) :
    (startRecording recorders cid name true false).2.1 = true ∧
    (startRecording recorders cid name true false).2.2 = true ∧
    alistLookup (startRecording recorders cid name true false).1 cid =
      some { camera_name := name, is_recording := false } ∧
    managerIsRecording (startRecording recorders cid name true false).1 cid =
      false ∧
    startRecording (startRecording recorders cid name true false).1 cid
        name2 ctorOk2 launchOk2 =
      ((startRecording recorders cid name true false).1, true, false) := by
  have hstep : startRecording recorders cid name true false =
      (alistInsert recorders cid ⟨name, false⟩, true, true) := by
    simp [startRecording, h, recorderEntryStart]
  have hlk := alistLookup_insert recorders cid (⟨name, false⟩ : RecorderEntry)
  refine ⟨by rw [hstep], by rw [hstep], ?_, ?_, ?_⟩
  · rw [hstep]; exact hlk
  · rw [hstep]; simp [managerIsRecording, hlk]
  · rw [hstep]; simp [startRecording, hlk]

/-- Witness for C10: camera 4 in an empty registry, followed by a retry
with a working encoder that is nevertheless ignored. -/
theorem start_recording_false_positive_witness :
    alistLookup ([] : List (Int × RecorderEntry)) 4 = none ∧
    ((startRecording [] 4 "Cam 4" true false).2.1 = true ∧
      (startRecording [] 4 "Cam 4" true false).2.2 = true ∧
      alistLookup (startRecording [] 4 "Cam 4" true false).1 4 =
        some { camera_name := "Cam 4", is_recording := false } ∧
      managerIsRecording (startRecording [] 4 "Cam 4" true false).1 4 = false ∧
      startRecording (startRecording [] 4 "Cam 4" true false).1 4
          "Cam 4" true true =
        ((startRecording [] 4 "Cam 4" true false).1, true, false)) :=
  ⟨by decide,
    start_recording_false_positive [] 4 "Cam 4" "Cam 4" true true (by decide)⟩

/-- An entry of `FailsafeMonitor.alerts`: its `type` field and camera id. -/
structure Alert where
  kind : String
  camera_id : Int
deriving Repr, DecidableEq

/-- The outcome of the `recording_manager.start_recording(...)` call as
observed by the health check: either the returned boolean, or an exception
escaping the call into the `except` handler. -/
inductive StartOutcome where
  | ret (b : Bool)
  | raised
deriving Repr, DecidableEq

/-- The per-camera body of `FailsafeMonitor._check_recording_health`
(lines 80-108), for a camera that should stream: `alive` is
`stream_manager.is_streaming(camera.id)`, `recording` is
`recording_manager.is_recording(camera.id)`, and `outcome` is what the
forced `start_recording` call does.  Returns the alerts this camera
contributes and whether `camera.is_recording` was set and saved. -/
def checkRecordingHealthCamera (cid : Int) (alive recording : Bool)
    (outcome : StartOutcome) : List Alert × Bool :=
  if alive && !recording then
    match outcome with
    | .ret true => ([⟨"recording_recovered", cid⟩], true)
    | .ret false => ([], false)
    | .raised => ([⟨"recording_failed", cid⟩], false)
  else ([], false)

/-- The outcome the health check actually observes when it calls the
registry: `start_recording` catches its exceptions internally and returns
a boolean, so no `raised` outcome occurs. -/
def healthOutcome (recorders : List (Int × RecorderEntry)) (cid : Int)
    (name : String) (ctorOk launchOk : Bool) : StartOutcome :=
  .ret (startRecording recorders cid name ctorOk launchOk).2.1

/-- C8 counterexample: camera 3 should stream, its worker is alive, no
recording session exists, and the forced start fails (the recorder
constructor raises, so `start_recording` returns False): no alert at all
is emitted, in particular no `recording_failed` alert. -/
theorem recording_failed_alert_cex :
    healthOutcome [] 3 "Cam 3" false true = .ret false ∧
    checkRecordingHealthCamera 3 true false (healthOutcome [] 3 "Cam 3" false true) =
      ([], false) ∧
    (⟨"recording_failed", 3⟩ : Alert) ∉
      (checkRecordingHealthCamera 3 true false
        (healthOutcome [] 3 "Cam 3" false true)).1 := by
  refine ⟨by decide, by decide, by decide⟩

/-- C8 (amended): for a camera that should stream, whose worker is alive
and with no recording session, the health check forces a start and emits a
`recording_recovered` alert when the call returns True; when the call
returns False no alert is emitted; a `recording_failed` alert is emitted
only when the call raises, and the registry call never raises (it catches
exceptions and returns False). -/
theorem recording_health_alerts (cid : Int) (alive recording : Bool)
    (outcome : StartOutcome) (recorders : List (Int × RecorderEntry))
    (name : String) (ctorOk launchOk : Bool)
    (halive : alive = true) (hrec : recording = false) :
    (outcome = .ret true →
      checkRecordingHealthCamera cid alive recording outcome =
        ([⟨"recording_recovered", cid⟩], true)) ∧
    (outcome = .ret false →
      checkRecordingHealthCamera cid alive recording outcome = ([], false)) ∧
    (outcome = .raised →
      checkRecordingHealthCamera cid alive recording outcome =
        ([⟨"recording_failed", cid⟩], false)) ∧
    healthOutcome recorders cid name ctorOk launchOk ≠ .raised := by
  subst halive hrec
  refine ⟨?_, ?_, ?_, ?_⟩ <;>
    first
      | (intro h; subst h; simp [checkRecordingHealthCamera])
      | simp [healthOutcome]

/-- Witness for C8 (amended): camera 3, alive and not recording, with the
three possible outcomes. -/
theorem recording_health_alerts_witness :
    (true = true ∧ false = false) ∧
    ((StartOutcome.ret true = .ret true →
      checkRecordingHealthCamera 3 true false (.ret true) =
        ([⟨"recording_recovered", 3⟩], true)) ∧
    (StartOutcome.ret true = .ret false →
      checkRecordingHealthCamera 3 true false (.ret true) = ([], false)) ∧
    (StartOutcome.ret true = .raised →
      checkRecordingHealthCamera 3 true false (.ret true) =
        ([⟨"recording_failed", 3⟩], false)) ∧
    healthOutcome [] 3 "Cam 3" false true ≠ .raised) :=
  ⟨by decide,
    recording_health_alerts 3 true false (.ret true) [] "Cam 3" false true
      rfl rfl⟩
